import Mathlib

/-!
# glDemo: player kinematics, follow camera and keyboard input

A shallow embedding of `src/glDemo/main.cpp`.  The C++ globals (player, camera,
input flags, planet system, window close flag) become one record `Scene`;
`updateScene` and `keyboardHandler` become pure functions on it.

The C++ `float` values are embedded as elements of a field `K` (exact
arithmetic); rounding, overflow and NaN are outside the model.  The glm
functions `radians`, `cos`, `sin` are taken as a parameter record `Glm K`; the
instance `realGlm` uses the real cosine and sine.
-/

namespace GlDemo

/-- Two-component vector, as glm::vec2. -/
structure Vec2 (K : Type) where
  x : K
  y : K

/-- Keyboard input state: the six global booleans of main.cpp, lines 39-44. -/
structure InputFlags where
  zoomInPressed : Bool
  zoomOutPressed : Bool
  rotateLeftPressed : Bool
  rotateRightPressed : Bool
  acceleratePressed : Bool
  deceleratePressed : Bool
deriving DecidableEq, Repr

/-- The mutable program state: the globals of main.cpp (lines 19-44) together
with the close flag of the GLFW window.  `P` is the state of the planet
system, whose class is not part of main.cpp. -/
structure Scene (K P : Type) where
  planets : P
  playerPos : Vec2 K
  playerVelocity : Vec2 K
  playerOrientation : K
  cameraZoom : K
  cameraPos : Vec2 K
  input : InputFlags
  windowShouldClose : Bool

/-- The glm scalar functions used by updateScene: degrees to radians, cosine
and sine.  They belong to the glm library and are taken as parameters. -/
structure Glm (K : Type) where
  radians : K → K
  cos : K → K
  sin : K → K

/-- Initial values of the globals (main.cpp lines 24-26, 34-35, 39-44); the
planet system starts in the given state and the window is open. -/
def initialScene {K P : Type} [Field K] (planets : P) : Scene K P :=
  { planets := planets
    playerPos := ⟨0, 0⟩
    playerVelocity := ⟨0, 0⟩
    playerOrientation := 0
    cameraZoom := 1
    cameraPos := ⟨0, 0⟩
    input := ⟨false, false, false, false, false, false⟩
    windowShouldClose := false }

/-- Modelled from the spec: the x and y entries of column 0 of
`glm::rotate(identity<mat4>(), angle, vec3(0, 0, 1))`; glm is not among the
sources.  The arithmetic follows glm's axis-angle formula with the (already
normalised) axis (0, 0, 1) applied to the identity matrix, which yields the
forward vector (cos angle, sin angle). -/
def rotateXBasis {K : Type} [Field K] (g : Glm K) (angle : K) : Vec2 K :=
  let c := g.cos angle
  let s := g.sin angle
  let ax : K := 0
  let ay : K := 0
  let az : K := 1
  let tx := (1 - c) * ax
  let r00 := c + tx * ax
  let r01 := tx * ay + s * az
  let r02 := tx * az - s * ay
  ⟨1 * r00 + 0 * r01 + 0 * r02, 0 * r00 + 1 * r01 + 0 * r02⟩

/-- The function updateScene of main.cpp (lines 210-277).  `clock` is `none`
when the global gameClock is null and `some d` when the clock, once ticked,
reports the frame time d.  `planetsUpdate` stands for planets.update. -/
def updateScene {K P : Type} [Field K] (g : Glm K) (planetsUpdate : P → K → P)
    (clock : Option K) (s : Scene K P) : Scene K P :=
  let tDelta : K := match clock with
    | some d => d
    | none => 0
  let planets := planetsUpdate s.planets tDelta
  let cameraZoom :=
    if s.input.zoomInPressed then s.cameraZoom * (1 - 0.5 * tDelta)
    else if s.input.zoomOutPressed then s.cameraZoom * (1 + tDelta)
    else s.cameraZoom
  let playerOrientation :=
    if s.input.rotateLeftPressed then s.playerOrientation + 90 * tDelta
    else if s.input.rotateRightPressed then s.playerOrientation - 90 * tDelta
    else s.playerOrientation
  let playerVelocity : Vec2 K :=
    if s.input.acceleratePressed then
      let xBasis := rotateXBasis g (g.radians playerOrientation)
      let dx := xBasis.x
      let dy := xBasis.y
      ⟨s.playerVelocity.x + dx * 0.5 * tDelta, s.playerVelocity.y + dy * 0.5 * tDelta⟩
    else if s.input.deceleratePressed then
      let xBasis := rotateXBasis g (g.radians playerOrientation)
      let dx := -xBasis.x
      let dy := -xBasis.y
      ⟨s.playerVelocity.x + dx * 0.5 * tDelta, s.playerVelocity.y + dy * 0.5 * tDelta⟩
    else s.playerVelocity
  let playerPos : Vec2 K :=
    ⟨s.playerPos.x + playerVelocity.x * tDelta, s.playerPos.y + playerVelocity.y * tDelta⟩
  let cameraPos : Vec2 K := ⟨playerPos.x, playerPos.y⟩
  { planets := planets
    playerPos := playerPos
    playerVelocity := playerVelocity
    playerOrientation := playerOrientation
    cameraZoom := cameraZoom
    cameraPos := cameraPos
    input := s.input
    windowShouldClose := s.windowShouldClose }

/-- Modelled from the spec: the GLFW action code of a key press (glfw3.h,
which is not among the sources, defines GLFW_PRESS as 1). -/
def GLFW_PRESS : Int := 1

/-- Modelled from the spec: the GLFW action code of a key release (glfw3.h
defines GLFW_RELEASE as 0). -/
def GLFW_RELEASE : Int := 0

/-- Modelled from the spec: GLFW key code of Escape (glfw3.h: 256). -/
def GLFW_KEY_ESCAPE : Int := 256

/-- Modelled from the spec: GLFW key code of the Up arrow (glfw3.h: 265). -/
def GLFW_KEY_UP : Int := 265

/-- Modelled from the spec: GLFW key code of the Down arrow (glfw3.h: 264). -/
def GLFW_KEY_DOWN : Int := 264

/-- Modelled from the spec: GLFW key code of W (glfw3.h: 87). -/
def GLFW_KEY_W : Int := 87

/-- Modelled from the spec: GLFW key code of S (glfw3.h: 83). -/
def GLFW_KEY_S : Int := 83

/-- Modelled from the spec: GLFW key code of A (glfw3.h: 65). -/
def GLFW_KEY_A : Int := 65

/-- Modelled from the spec: GLFW key code of D (glfw3.h: 68). -/
def GLFW_KEY_D : Int := 68

/-- The callback keyboardHandler of main.cpp (lines 289-354): the two switch
statements over the key, one for press events and one for release events.
The scancode and modifier arguments are not read by the source. -/
def keyboardHandler {K P : Type} (key action : Int) (s : Scene K P) : Scene K P :=
  if action = GLFW_PRESS then
    if key = GLFW_KEY_ESCAPE then { s with windowShouldClose := true }
    else if key = GLFW_KEY_UP then { s with input := { s.input with zoomInPressed := true } }
    else if key = GLFW_KEY_DOWN then { s with input := { s.input with zoomOutPressed := true } }
    else if key = GLFW_KEY_W then { s with input := { s.input with acceleratePressed := true } }
    else if key = GLFW_KEY_S then { s with input := { s.input with deceleratePressed := true } }
    else if key = GLFW_KEY_A then { s with input := { s.input with rotateLeftPressed := true } }
    else if key = GLFW_KEY_D then { s with input := { s.input with rotateRightPressed := true } }
    else s
  else if action = GLFW_RELEASE then
    if key = GLFW_KEY_UP then { s with input := { s.input with zoomInPressed := false } }
    else if key = GLFW_KEY_DOWN then { s with input := { s.input with zoomOutPressed := false } }
    else if key = GLFW_KEY_W then { s with input := { s.input with acceleratePressed := false } }
    else if key = GLFW_KEY_S then { s with input := { s.input with deceleratePressed := false } }
    else if key = GLFW_KEY_A then { s with input := { s.input with rotateLeftPressed := false } }
    else if key = GLFW_KEY_D then { s with input := { s.input with rotateRightPressed := false } }
    else s
  else s

/-- The input state in which accelerate is the only flag that is true. -/
def onlyAccelerate : InputFlags := ⟨false, false, false, false, true, false⟩

/-- The input state in which decelerate is the only flag that is true. -/
def onlyDecelerate : InputFlags := ⟨false, false, false, false, false, true⟩

/-- The glm functions over the real numbers: radians multiplies by pi / 180,
cos and sin are the real cosine and sine. -/
noncomputable def realGlm : Glm ℝ :=
  { radians := fun degrees => degrees * (Real.pi / 180)
    cos := Real.cos
    sin := Real.sin }

/-- Euclidean length of a real vector, as glm::length. -/
noncomputable def length (v : Vec2 ℝ) : ℝ :=
  Real.sqrt (v.x * v.x + v.y * v.y)

/-- Dot product of two vectors, as glm::dot. -/
def dot {K : Type} [Field K] (u v : Vec2 K) : K :=
  u.x * v.x + u.y * v.y

/-! ## Auxiliary lemmas -/

theorem rotateXBasis_eq {K : Type} [Field K] (g : Glm K) (a : K) :
    rotateXBasis g a = ⟨g.cos a, g.sin a⟩ := by
  simp [rotateXBasis]

theorem realGlm_forward_zero :
    rotateXBasis realGlm (realGlm.radians 0) = ⟨1, 0⟩ := by
  simp [rotateXBasis_eq, realGlm]

/-- C1 (as stated, refuted): from the initial player state with only accelerate
set, two updateScene steps of one second each do NOT leave the position within
0.1 of (1.0, 0.0): the conjunction "velocity = (1, 0) and position within 0.1
of (1, 0) in each coordinate" is false. -/
theorem C1_two_seconds_position_not_near_one :
    ¬ ((updateScene realGlm (fun (p : Unit) _ => p) (some 1)
          (updateScene realGlm (fun (p : Unit) _ => p) (some 1)
            { initialScene () with input := onlyAccelerate })).playerVelocity = ⟨1, 0⟩
       ∧ |(updateScene realGlm (fun (p : Unit) _ => p) (some 1)
          (updateScene realGlm (fun (p : Unit) _ => p) (some 1)
            { initialScene () with input := onlyAccelerate })).playerPos.x - 1| ≤ 0.1
       ∧ |(updateScene realGlm (fun (p : Unit) _ => p) (some 1)
          (updateScene realGlm (fun (p : Unit) _ => p) (some 1)
            { initialScene () with input := onlyAccelerate })).playerPos.y - 0| ≤ 0.1) := by
  simp [updateScene, initialScene, onlyAccelerate, realGlm_forward_zero]
  intro _ h
  rw [abs_le] at h
  norm_num at h

/-- C1 (amended): from player position (0,0), velocity (0,0), orientation 0 and
only the accelerate flag set, two consecutive updateScene steps of exactly one
second each leave the player velocity (1.0, 0.0) and the player position
(1.5, 0.0), whatever the planet system is. -/
theorem C1_two_seconds_velocity_and_position (P : Type) (planetsUpdate : P → ℝ → P)
    (planets : P) :
    (updateScene realGlm planetsUpdate (some 1)
        (updateScene realGlm planetsUpdate (some 1)
          { initialScene planets with input := onlyAccelerate })).playerVelocity = ⟨1, 0⟩
    ∧ (updateScene realGlm planetsUpdate (some 1)
        (updateScene realGlm planetsUpdate (some 1)
          { initialScene planets with input := onlyAccelerate })).playerPos = ⟨3 / 2, 0⟩ := by
  simp [updateScene, initialScene, onlyAccelerate, realGlm_forward_zero]
  norm_num

/-- C2: for every prior state, every glm and planet-system behaviour and every
clock reading (also a null clock), after updateScene the camera position equals
the player position. -/
theorem C2_camera_follows_player {K P : Type} [Field K] (g : Glm K)
    (planetsUpdate : P → K → P) (clock : Option K) (s : Scene K P) :
    (updateScene g planetsUpdate clock s).cameraPos
      = (updateScene g planetsUpdate clock s).playerPos := by
  simp [updateScene]

/-- C4: for every state in which accelerate is the only flag set and every delta
time t (in particular t >= 0), updateScene with the real glm sets
velocity' = velocity + forward * 0.5 * t, where forward, the x basis column of
the z-axis rotation matrix built from the player orientation in degrees, is
(cos, sin) of the orientation in radians and is a unit vector. -/
theorem C4_accelerate_adds_forward_thrust {P : Type} (planetsUpdate : P → ℝ → P)
    (t : ℝ) (s : Scene ℝ P) (hflags : s.input = onlyAccelerate) :
    (updateScene realGlm planetsUpdate (some t) s).playerVelocity
        = ⟨s.playerVelocity.x
              + (rotateXBasis realGlm (realGlm.radians s.playerOrientation)).x * 0.5 * t,
           s.playerVelocity.y
              + (rotateXBasis realGlm (realGlm.radians s.playerOrientation)).y * 0.5 * t⟩
    ∧ rotateXBasis realGlm (realGlm.radians s.playerOrientation)
        = ⟨Real.cos (s.playerOrientation * (Real.pi / 180)),
           Real.sin (s.playerOrientation * (Real.pi / 180))⟩
    ∧ length (rotateXBasis realGlm (realGlm.radians s.playerOrientation)) = 1 := by
  refine ⟨?_, ?_, ?_⟩
  · simp [updateScene, hflags, onlyAccelerate]
  · simp [rotateXBasis_eq, realGlm]
  · simp only [rotateXBasis_eq, length, realGlm]
    rw [← sq, ← sq, Real.cos_sq_add_sin_sq, Real.sqrt_one]

/-- Witness for C4: the initial scene with accelerate held, t = 1. -/
theorem C4_accelerate_adds_forward_thrust_witness :
    ({ initialScene () with input := onlyAccelerate } : Scene ℝ Unit).input = onlyAccelerate
    ∧ (updateScene realGlm (fun (p : Unit) _ => p) (some 1)
        { initialScene () with input := onlyAccelerate }).playerVelocity
        = ⟨(0 : ℝ) + (rotateXBasis realGlm (realGlm.radians 0)).x * 0.5 * 1,
           0 + (rotateXBasis realGlm (realGlm.radians 0)).y * 0.5 * 1⟩ :=
  ⟨rfl, (C4_accelerate_adds_forward_thrust (fun (p : Unit) _ => p) 1
    { initialScene () with input := onlyAccelerate } rfl).1⟩

/-- C5 (as stated, refuted): with velocity (-1, 0), orientation 0 and only
accelerate set, one updateScene step with t = 1 yields velocity (-0.5, 0),
whose magnitude 0.5 is smaller than the prior magnitude 1. -/
theorem C5_accelerate_can_reduce_speed :
    ¬ (length (updateScene realGlm (fun (p : Unit) _ => p) (some 1)
          { initialScene () with
            input := onlyAccelerate, playerVelocity := ⟨-1, 0⟩ }).playerVelocity
        ≥ length (⟨-1, 0⟩ : Vec2 ℝ)) := by
  have hv : (updateScene realGlm (fun (p : Unit) _ => p) (some 1)
      { initialScene () with
        input := onlyAccelerate, playerVelocity := ⟨-1, 0⟩ }).playerVelocity
      = ⟨-1 / 2, 0⟩ := by
    simp [updateScene, initialScene, onlyAccelerate, realGlm_forward_zero]
    norm_num
  rw [hv, not_le]
  unfold length
  apply Real.sqrt_lt_sqrt
  · norm_num
  · norm_num

/-- C5 (amended): for every prior velocity, orientation and delta time t >= 0,
an updateScene step with only accelerate set does not decrease the magnitude
of the player velocity provided the prior velocity has a non-negative component
along the forward vector (velocity . forward >= 0, e.g. from rest). -/
theorem C5_accelerate_speed_nondecreasing_when_aligned {P : Type} (g : Glm ℝ)
    (planetsUpdate : P → ℝ → P) (t : ℝ) (s : Scene ℝ P) (ht : 0 ≤ t)
    (hflags : s.input = onlyAccelerate)
    (halign : 0 ≤ dot s.playerVelocity (rotateXBasis g (g.radians s.playerOrientation))) :
    length (updateScene g planetsUpdate (some t) s).playerVelocity
      ≥ length s.playerVelocity := by
  simp only [updateScene, hflags, onlyAccelerate, rotateXBasis_eq, length, dot] at *
  apply Real.sqrt_le_sqrt
  simp only [Bool.false_eq_true, if_false, if_true]
  have h1 : 0 ≤ (s.playerVelocity.x * g.cos (g.radians s.playerOrientation)
      + s.playerVelocity.y * g.sin (g.radians s.playerOrientation)) * t :=
    mul_nonneg halign ht
  nlinarith [sq_nonneg (g.cos (g.radians s.playerOrientation) * 0.5 * t),
    sq_nonneg (g.sin (g.radians s.playerOrientation) * 0.5 * t)]

/-- Witness for C5 (amended): from rest at orientation 0, t = 1. -/
theorem C5_accelerate_speed_nondecreasing_when_aligned_witness :
    (0 : ℝ) ≤ 1
    ∧ ({ initialScene () with input := onlyAccelerate } : Scene ℝ Unit).input = onlyAccelerate
    ∧ 0 ≤ dot (⟨0, 0⟩ : Vec2 ℝ) (rotateXBasis realGlm (realGlm.radians 0))
    ∧ length (updateScene realGlm (fun (p : Unit) _ => p) (some 1)
          { initialScene () with input := onlyAccelerate }).playerVelocity
        ≥ length (⟨0, 0⟩ : Vec2 ℝ) :=
  ⟨zero_le_one, rfl, by simp [dot],
    C5_accelerate_speed_nondecreasing_when_aligned realGlm (fun (p : Unit) _ => p) 1
      { initialScene () with input := onlyAccelerate } zero_le_one rfl
      (by simp [dot, initialScene])⟩

/-- C6: for every state and delta time t, updateScene changes the player
orientation (degrees) thus: if rotate-left is set it becomes orientation + 90*t,
also when rotate-right is set too; if only rotate-right is set it becomes
orientation - 90*t; if neither is set it is unchanged. -/
theorem C6_orientation_update {K P : Type} [Field K] (g : Glm K)
    (planetsUpdate : P → K → P) (t : K) (s : Scene K P) :
    (s.input.rotateLeftPressed = true →
      (updateScene g planetsUpdate (some t) s).playerOrientation
        = s.playerOrientation + 90 * t)
    ∧ (s.input.rotateLeftPressed = false → s.input.rotateRightPressed = true →
      (updateScene g planetsUpdate (some t) s).playerOrientation
        = s.playerOrientation - 90 * t)
    ∧ (s.input.rotateLeftPressed = false → s.input.rotateRightPressed = false →
      (updateScene g planetsUpdate (some t) s).playerOrientation
        = s.playerOrientation) := by
  refine ⟨?_, ?_, ?_⟩
  · intro hl
    simp [updateScene, hl]
  · intro hl hr
    simp [updateScene, hl, hr]
  · intro hl hr
    simp [updateScene, hl, hr]

/-- Witness for C6: both rotate flags set, orientation 0, t = 1: only the left
effect applies. -/
theorem C6_orientation_update_witness :
    ({ initialScene () with
        input := ⟨false, false, true, true, false, false⟩ } : Scene ℝ Unit).input.rotateLeftPressed
      = true
    ∧ (updateScene realGlm (fun (p : Unit) _ => p) (some 1)
        { initialScene () with
          input := ⟨false, false, true, true, false, false⟩ }).playerOrientation
      = 0 + 90 * 1 :=
  ⟨rfl, (C6_orientation_update realGlm (fun (p : Unit) _ => p) 1
    { initialScene () with input := ⟨false, false, true, true, false, false⟩ }).1 rfl⟩

/-- C7 (as stated, refuted): with zoom-in and zoom-out both set, zoom 1 and
t = 1, updateScene changes the camera zoom (to 0.5). -/
theorem C7_both_zoom_flags_change_zoom :
    (updateScene realGlm (fun (p : Unit) _ => p) (some 1)
        { initialScene () with
          input := ⟨true, true, false, false, false, false⟩ }).cameraZoom
      ≠ ({ initialScene () with
          input := ⟨true, true, false, false, false, false⟩ } : Scene ℝ Unit).cameraZoom := by
  simp [updateScene, initialScene]
  norm_num

/-- C7 (amended): for every camera zoom and delta time t, when zoom-in and
zoom-out are both false updateScene leaves the camera zoom unchanged; when both
are true the zoom-in branch alone applies, zoom' = zoom * (1 - 0.5*t). -/
theorem C7_zoom_both_false_or_both_true {K P : Type} [Field K] (g : Glm K)
    (planetsUpdate : P → K → P) (t : K) (s : Scene K P) :
    (s.input.zoomInPressed = false → s.input.zoomOutPressed = false →
      (updateScene g planetsUpdate (some t) s).cameraZoom = s.cameraZoom)
    ∧ (s.input.zoomInPressed = true → s.input.zoomOutPressed = true →
      (updateScene g planetsUpdate (some t) s).cameraZoom
        = s.cameraZoom * (1 - 0.5 * t)) := by
  refine ⟨?_, ?_⟩
  · intro hi ho
    simp [updateScene, hi, ho]
  · intro hi _
    simp [updateScene, hi]

/-- Witness for C7 (amended): both zoom flags set, zoom 1, t = 1. -/
theorem C7_zoom_both_false_or_both_true_witness :
    ({ initialScene () with
        input := ⟨true, true, false, false, false, false⟩ } : Scene ℝ Unit).input.zoomInPressed
      = true
    ∧ ({ initialScene () with
        input := ⟨true, true, false, false, false, false⟩ } : Scene ℝ Unit).input.zoomOutPressed
      = true
    ∧ (updateScene realGlm (fun (p : Unit) _ => p) (some 1)
        { initialScene () with
          input := ⟨true, true, false, false, false, false⟩ }).cameraZoom
      = 1 * (1 - 0.5 * 1) :=
  ⟨rfl, rfl, (C7_zoom_both_false_or_both_true realGlm (fun (p : Unit) _ => p) 1
    { initialScene () with input := ⟨true, true, false, false, false, false⟩ }).2 rfl rfl⟩

/-- C9: keyboardHandler maps each bound key to one flag (Up: zoom-in, Down:
zoom-out, A: rotate-left, D: rotate-right, W: accelerate, S: decelerate).  For
every prior state a press of a bound key sets its flag to true and a release
sets it to false, the other five flags keeping their values; an event for any
other key, or with an action that is neither press nor release, leaves all six
flags unchanged. -/
theorem C9_keyboardHandler_flags {K P : Type} (s : Scene K P) :
    (keyboardHandler GLFW_KEY_UP GLFW_PRESS s).input
        = { s.input with zoomInPressed := true }
    ∧ (keyboardHandler GLFW_KEY_DOWN GLFW_PRESS s).input
        = { s.input with zoomOutPressed := true }
    ∧ (keyboardHandler GLFW_KEY_A GLFW_PRESS s).input
        = { s.input with rotateLeftPressed := true }
    ∧ (keyboardHandler GLFW_KEY_D GLFW_PRESS s).input
        = { s.input with rotateRightPressed := true }
    ∧ (keyboardHandler GLFW_KEY_W GLFW_PRESS s).input
        = { s.input with acceleratePressed := true }
    ∧ (keyboardHandler GLFW_KEY_S GLFW_PRESS s).input
        = { s.input with deceleratePressed := true }
    ∧ (keyboardHandler GLFW_KEY_UP GLFW_RELEASE s).input
        = { s.input with zoomInPressed := false }
    ∧ (keyboardHandler GLFW_KEY_DOWN GLFW_RELEASE s).input
        = { s.input with zoomOutPressed := false }
    ∧ (keyboardHandler GLFW_KEY_A GLFW_RELEASE s).input
        = { s.input with rotateLeftPressed := false }
    ∧ (keyboardHandler GLFW_KEY_D GLFW_RELEASE s).input
        = { s.input with rotateRightPressed := false }
    ∧ (keyboardHandler GLFW_KEY_W GLFW_RELEASE s).input
        = { s.input with acceleratePressed := false }
    ∧ (keyboardHandler GLFW_KEY_S GLFW_RELEASE s).input
        = { s.input with deceleratePressed := false }
    ∧ (∀ key action : Int,
        (key ≠ GLFW_KEY_UP ∧ key ≠ GLFW_KEY_DOWN ∧ key ≠ GLFW_KEY_A ∧ key ≠ GLFW_KEY_D
            ∧ key ≠ GLFW_KEY_W ∧ key ≠ GLFW_KEY_S)
          ∨ (action ≠ GLFW_PRESS ∧ action ≠ GLFW_RELEASE) →
        (keyboardHandler key action s).input = s.input) := by
  refine ⟨rfl, rfl, rfl, rfl, rfl, rfl, rfl, rfl, rfl, rfl, rfl, rfl, ?_⟩
  intro key action h
  rcases h with ⟨h1, h2, h3, h4, h5, h6⟩ | ⟨hp, hr⟩
  · unfold keyboardHandler
    simp only [h1, h2, h3, h4, h5, h6, if_false]
    repeat (first | rfl | split)
  · unfold keyboardHandler
    simp only [hp, hr, if_false]

/-- Witness for C9: Escape pressed (a key bound to no flag) while accelerate is
held leaves the six flags as they were. -/
theorem C9_keyboardHandler_flags_witness :
    ((GLFW_KEY_ESCAPE ≠ GLFW_KEY_UP ∧ GLFW_KEY_ESCAPE ≠ GLFW_KEY_DOWN
        ∧ GLFW_KEY_ESCAPE ≠ GLFW_KEY_A ∧ GLFW_KEY_ESCAPE ≠ GLFW_KEY_D
        ∧ GLFW_KEY_ESCAPE ≠ GLFW_KEY_W ∧ GLFW_KEY_ESCAPE ≠ GLFW_KEY_S)
      ∨ (GLFW_PRESS ≠ GLFW_PRESS ∧ GLFW_PRESS ≠ GLFW_RELEASE))
    ∧ (keyboardHandler GLFW_KEY_ESCAPE GLFW_PRESS
        ({ initialScene () with input := onlyAccelerate } : Scene ℚ Unit)).input
      = onlyAccelerate :=
  ⟨Or.inl (by decide),
    (C9_keyboardHandler_flags
      ({ initialScene () with input := onlyAccelerate } : Scene ℚ Unit)).2.2.2.2.2.2.2.2.2.2.2.2
      GLFW_KEY_ESCAPE GLFW_PRESS (Or.inl (by decide))⟩

/-- C10 (as stated, refuted): from rest at orientation 0, one updateScene step
of duration 1 with only accelerate set followed by one of duration 1 with only
decelerate set leaves the player velocity equal to (0, 0), so "the velocity is
different from (0, 0)" is false. -/
theorem C10_accelerate_then_decelerate_at_rest_example :
    ¬ ((updateScene realGlm (fun (p : Unit) _ => p) (some 1)
        { updateScene realGlm (fun (p : Unit) _ => p) (some 1)
            { initialScene () with input := onlyAccelerate } with
          input := onlyDecelerate }).playerVelocity ≠ ⟨0, 0⟩) := by
  simp [updateScene, initialScene, onlyAccelerate, onlyDecelerate, realGlm_forward_zero]

/-- C10 (amended): starting from velocity (0,0), for every orientation and
every t, an updateScene step of duration t with only accelerate set followed by
an updateScene step of the same duration t with only decelerate set (no
rotation in between) leaves the player velocity equal to (0,0): the two thrusts
cancel exactly. -/
theorem C10_accelerate_then_decelerate_cancels {K P : Type} [Field K] (g : Glm K)
    (planetsUpdate : P → K → P) (t : K) (s : Scene K P)
    (hrest : s.playerVelocity = ⟨0, 0⟩) (hflags : s.input = onlyAccelerate) :
    (updateScene g planetsUpdate (some t)
        { updateScene g planetsUpdate (some t) s with
          input := onlyDecelerate }).playerVelocity = ⟨0, 0⟩ := by
  simp [updateScene, hrest, hflags, onlyAccelerate, onlyDecelerate]

/-- Witness for C10 (amended): orientation 90 degrees, t = 3, real glm. -/
theorem C10_accelerate_then_decelerate_cancels_witness :
    ({ initialScene () with
        input := onlyAccelerate, playerOrientation := 90 } : Scene ℝ Unit).playerVelocity
      = ⟨0, 0⟩
    ∧ ({ initialScene () with
        input := onlyAccelerate, playerOrientation := 90 } : Scene ℝ Unit).input
      = onlyAccelerate
    ∧ (updateScene realGlm (fun (p : Unit) _ => p) (some 3)
        { updateScene realGlm (fun (p : Unit) _ => p) (some 3)
            { initialScene () with input := onlyAccelerate, playerOrientation := 90 } with
          input := onlyDecelerate }).playerVelocity = ⟨0, 0⟩ :=
  ⟨rfl, rfl, C10_accelerate_then_decelerate_cancels realGlm (fun (p : Unit) _ => p) 3
    { initialScene () with input := onlyAccelerate, playerOrientation := 90 } rfl rfl⟩

end GlDemo
